import Mathlib

/-!
Verification development for the polaris-gslb health-check core.

Shallow embedding of three Python modules:
* `polaris_health/protocols/tcp.py` — `TCPSocket`: a TCP socket helper with a
  shared, shrinking operation timeout (`_decrease_timeout`) and optional TLS.
* `polaris_health/monitors/tcp.py` — `TCP` monitor: construction-time
  validation of port / match_re / send_string, and `run()` which connects,
  optionally wraps TLS, optionally sends, then reads chunks into an
  accumulated buffer and searches a compiled regex against it.
* `polaris_health/monitors/external.py` — `ExternalScript` monitor: executes
  a script, strips stdout/stderr, checks the exit code and an optional
  output pattern.

Modelling conventions: wall-clock durations are rationals; the environment
(operating system, peer, TLS library, child process) is passed as explicit
outcome data (elapsed times, error strings, received byte chunks); the
compiled case-insensitive regex is abstracted as a `String → Bool` search
function; Python bytes are lists of naturals below 256; exceptions become
explicit result constructors.
-/

/-- Result of a monitor `run()` invocation as seen by the caller.
`monitorFailed` is the `MonitorFailed` exception with its message;
`uncaught` is any other exception type escaping `run()`;
`noMoreEvents` is a model artefact meaning the supplied list of receive
events was exhausted while the read loop wanted more data. -/
inductive RunOutcome where
  | ok
  | monitorFailed (msg : String)
  | uncaught (msg : String)
  | noMoreEvents (buf : String)
deriving DecidableEq, Repr

/-! ## TCPSocket (protocols/tcp.py) -/

/-- State of a `TCPSocket` instance: the `self.timeout` attribute, the value
last applied through `settimeout` on the underlying handle, the
`auto_timeout` flag, and whether the OS-level handle is still open. -/
structure TCPSocket where
  timeout : ℚ
  sock_timeout : ℚ
  auto_timeout : Bool
  handle_open : Bool
deriving DecidableEq, Repr

/-- `TCPSocket.settimeout`: applies a timeout on the underlying socket. -/
def TCPSocket.settimeout (s : TCPSocket) (t : ℚ) : TCPSocket :=
  { s with sock_timeout := t }

/-- `TCPSocket._decrease_timeout`: subtract the time taken by an I/O
operation from `self.timeout`, clamp at zero, and re-apply via
`settimeout` — only when `auto_timeout` is set. -/
def TCPSocket.decrease_timeout (s : TCPSocket) (time_taken : ℚ) : TCPSocket :=
  if s.auto_timeout then
    let t1 := s.timeout - time_taken
    let t2 := if t1 < 0 then 0 else t1
    TCPSocket.settimeout { s with timeout := t2 } t2
  else s

/-- `self._sock.close()`: the raw OS-level close used on error paths. -/
def TCPSocket.rawClose (s : TCPSocket) : TCPSocket :=
  { s with handle_open := false }

/-- `TCPSocket.connect`: on an `OSError` (modelled as `some e`, where `e`
stands for the formatted `"{class} {exc}"` text) the handle is closed and a
`ProtocolError` message is produced; on success `_decrease_timeout` runs
with the elapsed time. -/
def TCPSocket.connect (s : TCPSocket) (elapsed : ℚ) (osError : Option String) :
    TCPSocket × Option String :=
  match osError with
  | some e => (s.rawClose, some (e ++ " during socket.connect()"))
  | none => (s.decrease_timeout elapsed, none)

/-- `TCPSocket.sendall`: same shape as `connect`. -/
def TCPSocket.sendall (s : TCPSocket) (elapsed : ℚ) (osError : Option String) :
    TCPSocket × Option String :=
  match osError with
  | some e => (s.rawClose, some (e ++ " during socket.sendall()"))
  | none => (s.decrease_timeout elapsed, none)

/-- Outcome of one `self._sock.recv(RECV_BUFF_SIZE)` call supplied by the
environment: either bytes delivered after some elapsed time (an empty list
is the peer closing cleanly) or an `OSError`. -/
inductive RecvEv where
  | data (elapsed : ℚ) (bs : List Nat)
  | oserr (elapsed : ℚ) (msg : String)
deriving DecidableEq, Repr

/-- `TCPSocket.recv`: on `OSError` the handle is closed and a
`ProtocolError` message results; on success the timeout is decreased and
the raw bytes are returned. -/
def TCPSocket.recv (s : TCPSocket) (ev : RecvEv) :
    TCPSocket × Except String (List Nat) :=
  match ev with
  | .oserr _ msg => (s.rawClose, Except.error (msg ++ " during socket.recv()"))
  | .data t bs => (s.decrease_timeout t, Except.ok bs)

/-- Outcome of `context.wrap_socket` supplied by the environment:
handshake success, an `ssl.SSLError`, or any other exception
(e.g. `socket.timeout`), which the source does not catch. -/
inductive SSLOutcome where
  | handshakeOk
  | sslError (msg : String)
  | otherError (msg : String)
deriving DecidableEq, Repr

/-- Result of `TCPSocket.wrap_ssl`. -/
inductive WrapRes where
  | wok (s : TCPSocket)
  | wproto (s : TCPSocket) (msg : String)
  | wuncaught (s : TCPSocket) (msg : String)
deriving DecidableEq, Repr

/-- `TCPSocket.wrap_ssl`: catches only `ssl.SSLError` (close the handle,
raise `ProtocolError`); any other exception propagates unchanged and the
handle stays open.  Note: the source takes no start time and never calls
`_decrease_timeout` here, so the handshake does not consume the shared
timeout budget. -/
def TCPSocket.wrap_ssl (s : TCPSocket) (o : SSLOutcome) : WrapRes :=
  match o with
  | .handshakeOk => .wok s
  | .sslError e => .wproto s.rawClose ("SSL error: " ++ e ++ " during TLS handshake")
  | .otherError e => .wuncaught s e

/-- `TCPSocket.close`: `shutdown(SHUT_RDWR)` then `close()` inside one
`try`; an `OSError` from the shutdown is logged (returned as the second
component) and never re-raised, but it skips the following
`self._sock.close()` call, so the handle stays open in that case. -/
def TCPSocket.close (s : TCPSocket) (shutdown_err : Option String) :
    TCPSocket × Option String :=
  match shutdown_err with
  | some e => (s, some ("Got " ++ e ++ " when shutting down and closing the socket"))
  | none => ({ s with handle_open := false }, none)

/-! ## Deadline-budget trace model

Used to reason about the total wall-clock time of a sequence of successful
blocking operations on one `TCPSocket`.  A well-timed trace is one where
the elapsed time of each operation is nonnegative and at most the timeout
currently applied on the handle (a successful blocking socket operation
returns within the configured socket timeout). -/

/-- One successful blocking operation together with the wall-clock time it
consumed. -/
inductive BlockingOp where
  | bConnect (elapsed : ℚ)
  | bWrapSSL (elapsed : ℚ)
  | bSendall (elapsed : ℚ)
  | bRecv (elapsed : ℚ)
deriving DecidableEq, Repr

/-- Wall-clock time consumed by a blocking operation. -/
def BlockingOp.elapsed : BlockingOp → ℚ
  | .bConnect t => t
  | .bWrapSSL t => t
  | .bSendall t => t
  | .bRecv t => t

/-- Whether the operation is the TLS handshake. -/
def BlockingOp.isWrap : BlockingOp → Bool
  | .bWrapSSL _ => true
  | _ => false

/-- Effect of one successful blocking operation on the socket state, as in
the source: `connect`, `sendall` and `recv` call `_decrease_timeout` with
their elapsed time; `wrap_ssl` does not touch the timeout. -/
def stepOp (s : TCPSocket) : BlockingOp → TCPSocket
  | .bConnect t => s.decrease_timeout t
  | .bWrapSSL _ => s
  | .bSendall t => s.decrease_timeout t
  | .bRecv t => s.decrease_timeout t

/-- A trace is well timed when every operation takes a nonnegative time
bounded by the socket timeout in force when it starts. -/
def wellTimed : List BlockingOp → TCPSocket → Bool
  | [], _ => true
  | op :: rest, s =>
      decide (0 ≤ op.elapsed) && decide (op.elapsed ≤ s.sock_timeout)
        && wellTimed rest (stepOp s op)

/-- Total wall-clock time of a trace. -/
def totalElapsed (l : List BlockingOp) : ℚ :=
  (l.map BlockingOp.elapsed).sum

/-- Run a trace of successful operations from an initial socket state. -/
def execTrace : List BlockingOp → TCPSocket → TCPSocket
  | [], s => s
  | op :: rest, s => execTrace rest (stepOp s op)

/-! ## Decoding received bytes (`recv_bytes.decode` with the ignore error mode)

UTF-8 decoding with the ignore error handler: well-formed sequences
decode to their code points, malformed bytes are silently dropped (the
decoder resumes after the longest valid prefix of a sequence), and a
truncated final sequence is dropped.  Fuel-based so that applications
reduce in the kernel; the fuel decreases by one while at least one byte is
consumed per step, so `fuel = length` always suffices. -/

/-- Is `b` a UTF-8 continuation byte. -/
def contByte (b : Nat) : Bool := 128 ≤ b && b ≤ 191

/-- Valid range of the first continuation byte of a three-byte sequence
(excludes overlong encodings for lead 0xE0 and surrogates for 0xED). -/
def cont3Ok (b b1 : Nat) : Bool :=
  if b = 224 then 160 ≤ b1 && b1 ≤ 191
  else if b = 237 then 128 ≤ b1 && b1 ≤ 159
  else contByte b1

/-- Valid range of the first continuation byte of a four-byte sequence
(excludes overlongs for lead 0xF0 and values above U+10FFFF for 0xF4). -/
def cont4Ok (b b1 : Nat) : Bool :=
  if b = 240 then 144 ≤ b1 && b1 ≤ 191
  else if b = 244 then 128 ≤ b1 && b1 ≤ 143
  else contByte b1

/-- Fuel-indexed UTF-8 decoder with the ignore error handler. -/
def decodeUtf8IgnoreAux : Nat → List Nat → String
  | 0, _ => ""
  | _, [] => ""
  | fuel + 1, b :: rest =>
    if b < 128 then
      String.singleton (Char.ofNat b) ++ decodeUtf8IgnoreAux fuel rest
    else if b < 194 then
      -- stray continuation byte or overlong two-byte lead: dropped
      decodeUtf8IgnoreAux fuel rest
    else if b < 224 then
      match rest with
      | [] => ""
      | b1 :: rest1 =>
        if contByte b1 then
          String.singleton (Char.ofNat ((b - 192) * 64 + (b1 - 128)))
            ++ decodeUtf8IgnoreAux fuel rest1
        else decodeUtf8IgnoreAux fuel rest
    else if b < 240 then
      match rest with
      | [] => ""
      | [b1] => if cont3Ok b b1 then "" else decodeUtf8IgnoreAux fuel [b1]
      | b1 :: b2 :: rest2 =>
        if cont3Ok b b1 then
          if contByte b2 then
            String.singleton
                (Char.ofNat ((b - 224) * 4096 + (b1 - 128) * 64 + (b2 - 128)))
              ++ decodeUtf8IgnoreAux fuel rest2
          else decodeUtf8IgnoreAux fuel (b2 :: rest2)
        else decodeUtf8IgnoreAux fuel (b1 :: b2 :: rest2)
    else if b < 245 then
      match rest with
      | [] => ""
      | [b1] => if cont4Ok b b1 then "" else decodeUtf8IgnoreAux fuel [b1]
      | [b1, b2] =>
        if cont4Ok b b1 then
          if contByte b2 then "" else decodeUtf8IgnoreAux fuel [b2]
        else decodeUtf8IgnoreAux fuel [b1, b2]
      | b1 :: b2 :: b3 :: rest3 =>
        if cont4Ok b b1 then
          if contByte b2 then
            if contByte b3 then
              String.singleton
                  (Char.ofNat ((b - 240) * 262144 + (b1 - 128) * 4096
                    + (b2 - 128) * 64 + (b3 - 128)))
                ++ decodeUtf8IgnoreAux fuel rest3
            else decodeUtf8IgnoreAux fuel (b3 :: rest3)
          else decodeUtf8IgnoreAux fuel (b2 :: b3 :: rest3)
        else decodeUtf8IgnoreAux fuel (b1 :: b2 :: b3 :: rest3)
    else
      -- 0xF5..0xFF can never start a sequence: dropped
      decodeUtf8IgnoreAux fuel rest

/-- Decoding of a received byte chunk with the ignore error mode. -/
def decodeUtf8Ignore (l : List Nat) : String :=
  decodeUtf8IgnoreAux l.length l

/-! ## TCP monitor (monitors/tcp.py) -/

/-- Python `str[:n]`: the first `n` characters. -/
def pySlice (s : String) (n : Nat) : String :=
  String.mk (s.data.take n)

/-- Message for a receive error with an empty accumulated buffer. -/
def recvErrNoDataMsg (e : String) : String :=
  "got " ++ e ++ ", no data received from the peer"

/-- Message for a receive error with a nonempty accumulated buffer. -/
def recvErrUnmatchedMsg (e b : String) : String :=
  "failed to match the regexp within the timeout, got " ++ e
    ++ ", response(up to 512 chars): " ++ pySlice b 512

/-- Message for a clean peer close with an empty accumulated buffer. -/
def remoteClosedNoDataMsg : String :=
  "remote closed the connection, no data received from the peer"

/-- Message for a clean peer close with a nonempty accumulated buffer. -/
def remoteClosedUnmatchedMsg (b : String) : String :=
  "remote closed the connection, failed to match the regexp in the response(up to 512 chars): "
    ++ pySlice b 512

/-- The `while True` receive loop of `TCP.run`: receive; on `ProtocolError`
fail with a no-data or partial-response message; on an empty bytes result fail with a
remote-closed message (without calling `close()`); on data, append the
ignore-decoded chunk to the accumulated buffer and search the compiled
regex against all of it — on a hit, close the socket and succeed. -/
def tcpRunLoop (matcher : String → Bool) (sh : Option String) :
    List RecvEv → TCPSocket → String → RunOutcome × TCPSocket
  | [], s, buf => (RunOutcome.noMoreEvents buf, s)
  | ev :: rest, s, buf =>
    match TCPSocket.recv s ev with
    | (s1, Except.error e) =>
        (RunOutcome.monitorFailed
          (if buf = "" then recvErrNoDataMsg e else recvErrUnmatchedMsg e buf), s1)
    | (s1, Except.ok bs) =>
        if bs = [] then
          (RunOutcome.monitorFailed
            (if buf = "" then remoteClosedNoDataMsg else remoteClosedUnmatchedMsg buf), s1)
        else
          let buf1 := buf ++ decodeUtf8Ignore bs
          if matcher buf1 then (RunOutcome.ok, (TCPSocket.close s1 sh).1)
          else tcpRunLoop matcher sh rest s1 buf1

/-- Configuration of a validated `TCP` monitor instance. -/
structure TCP where
  port : Int
  use_tls : Bool
  verify_tls : Bool
  send_string : Option String
  match_re : Option String
  timeout : ℚ
deriving DecidableEq, Repr

/-- Environment of one `TCP.run` invocation: outcomes of every blocking
operation performed by the socket. -/
structure TCPEnv where
  connect_elapsed : ℚ
  connect_err : Option String
  ssl_outcome : SSLOutcome
  send_elapsed : ℚ
  send_err : Option String
  recv_events : List RecvEv
  shutdown_err : Option String
deriving Repr

/-- `TCP.run`: fresh socket with the configured timeout; connect, optional
TLS wrap, optional send — a `ProtocolError` from any of these becomes
`MonitorFailed`; with no `match_re` close and succeed; otherwise run the
receive loop.  `matcher` stands for `self._match_re_compiled.search`
returning a hit or not. -/
def TCP.run (m : TCP) (matcher : String → Bool) (env : TCPEnv) :
    RunOutcome × TCPSocket :=
  let s0 : TCPSocket :=
    { timeout := m.timeout, sock_timeout := m.timeout,
      auto_timeout := true, handle_open := true }
  match TCPSocket.connect s0 env.connect_elapsed env.connect_err with
  | (s1, some e) => (RunOutcome.monitorFailed e, s1)
  | (s1, none) =>
    match (if m.use_tls then TCPSocket.wrap_ssl s1 env.ssl_outcome else WrapRes.wok s1) with
    | .wproto s2 e => (RunOutcome.monitorFailed e, s2)
    | .wuncaught s2 e => (RunOutcome.uncaught e, s2)
    | .wok s2 =>
      match (if m.send_string.isSome
             then TCPSocket.sendall s2 env.send_elapsed env.send_err
             else (s2, none)) with
      | (s3, some e) => (RunOutcome.monitorFailed e, s3)
      | (s3, none) =>
        match m.match_re with
        | none => (RunOutcome.ok, (TCPSocket.close s3 env.shutdown_err).1)
        | some _ => tcpRunLoop matcher env.shutdown_err env.recv_events s3 ""

/-! ## TCP monitor construction (`TCP.__init__`) -/

/-- A Python value as far as the dynamic `isinstance` checks in
`TCP.__init__` observe it. -/
inductive PyVal where
  | pyInt (n : Int)
  | pyStr (s : String)
  | pyNone
  | pyOther
deriving DecidableEq, Repr

/-- The `send_string` validation block of `TCP.__init__`, reached after the
port and `match_re` blocks succeeded. -/
def TCP.initSend (p : Int) (use_tls verify_tls : Bool) (mr : Option String)
    (send_string : PyVal) (timeout : ℚ) : Except String TCP :=
  match send_string with
  | .pyNone =>
      Except.ok { port := p, use_tls := use_tls, verify_tls := verify_tls,
                  send_string := none, match_re := mr, timeout := timeout }
  | .pyStr s =>
      if s.length > 256 then
        Except.error "send_string must be a string, 256 chars max"
      else
        Except.ok { port := p, use_tls := use_tls, verify_tls := verify_tls,
                    send_string := some s, match_re := mr, timeout := timeout }
  | _ => Except.error "send_string must be a string, 256 chars max"

/-- `TCP.__init__` validation: port must be an `int` in `[1, 65535]`;
`match_re`, when not `None`, must be a `str` of at most 128 characters that
compiles as a case-insensitive regex (`compiles` stands for `re.compile`
succeeding); `send_string`, when not `None`, must be a `str` of at most
256 characters.  Any violation raises `Error` at construction time. -/
def TCP.init (port send_string match_re : PyVal) (use_tls verify_tls : Bool)
    (compiles : String → Bool) (timeout : ℚ) : Except String TCP :=
  match port with
  | .pyInt p =>
    if p < 1 || p > 65535 then
      Except.error "port must be an integer between 1 and 65535"
    else
      match match_re with
      | .pyNone => TCP.initSend p use_tls verify_tls none send_string timeout
      | .pyStr r =>
        if r.length > 128 then
          Except.error "match_re must be a string, 128 chars max"
        else if compiles r then
          TCP.initSend p use_tls verify_tls (some r) send_string timeout
        else
          Except.error "failed to compile a regular expression"
      | _ => Except.error "match_re must be a string, 128 chars max"
  | _ => Except.error "port must be an integer between 1 and 65535"

/-- Whether an `Except` carries a success value. -/
def exceptIsOk : Except String TCP → Bool
  | .ok _ => true
  | .error _ => false

/-! ## ExternalScript monitor (monitors/external.py) -/

/-- Python `str.strip()` over ASCII whitespace. -/
def pyIsSpace (c : Char) : Bool :=
  c = ' ' || c = '\t' || c = '\n' || c = '\r' || c = '\x0b' || c = '\x0c'

/-- Python `str.strip()`: remove leading and trailing whitespace. -/
def pyStrip (s : String) : String :=
  String.mk (((s.data.dropWhile pyIsSpace).reverse.dropWhile pyIsSpace).reverse)

/-- Configuration of an `ExternalScript` monitor instance. -/
structure ExternalScript where
  script_path : String
  match_re : Option String
  timeout : ℚ
deriving DecidableEq, Repr

/-- Outcome of `subprocess.run(command, capture_output=True, ...)` supplied
by the environment: completion with an exit code and raw stdout/stderr,
`TimeoutExpired`, `CalledProcessError`, or an `OSError` such as
`FileNotFoundError` for a nonexistent script path — the latter is not
among the caught exception classes. -/
inductive ScriptOutcome where
  | completed (exit_code : Int) (out err : String)
  | timedOut
  | calledProcError (msg : String)
  | fileNotFound (msg : String)
deriving DecidableEq, Repr

/-- `ExternalScript.run`: strip captured stdout/stderr; `TimeoutExpired`
and `CalledProcessError` become `MonitorFailed`; `FileNotFoundError`
propagates uncaught; a nonzero exit code fails with the stripped stderr in
the message; with a configured `match_re`, a miss on the stripped stdout
fails; otherwise the run succeeds. -/
def ExternalScript.run (m : ExternalScript) (matcher : String → Bool)
    (oc : ScriptOutcome) : RunOutcome :=
  match oc with
  | .timedOut =>
      RunOutcome.monitorFailed
        ("external script timed out after " ++ toString m.timeout ++ " seconds")
  | .calledProcError e =>
      RunOutcome.monitorFailed ("external script failed with error: " ++ e)
  | .fileNotFound e => RunOutcome.uncaught e
  | .completed code rawOut rawErr =>
      let stdout := pyStrip rawOut
      let stderr := pyStrip rawErr
      if code ≠ 0 then
        RunOutcome.monitorFailed
          ("external script failed with exit code " ++ toString code
            ++ ": stderr=" ++ stderr)
      else
        match m.match_re with
        | some r =>
            if matcher stdout then RunOutcome.ok
            else
              RunOutcome.monitorFailed
                ("failed to match regexp \"" ++ r ++ "\" in script output")
        | none => RunOutcome.ok

/-! ## Shared helpers for the theorems -/

/-- `sub` occurs somewhere inside `s`. -/
def strContains (s sub : String) : Prop :=
  ∃ a b : String, s = a ++ sub ++ b

/-- A concrete socket with a five-second budget, as built by `TCP.run`
for `timeout=5`. -/
def sock5 : TCPSocket :=
  { timeout := 5, sock_timeout := 5, auto_timeout := true, handle_open := true }

/-- Concatenation of the ignore-decoded data chunks, i.e. the accumulated
response buffer after every chunk has been appended. -/
def concatDecode (chunks : List (ℚ × List Nat)) : String :=
  (chunks.map (fun c => decodeUtf8Ignore c.2)).foldr (· ++ ·) ""

/-- A plain TCP monitor: no TLS, nothing to send, nothing to match. -/
def tcpPlain : TCP :=
  { port := 80, use_tls := false, verify_tls := true,
    send_string := none, match_re := none, timeout := 5 }

/-- An environment where every operation succeeds instantly. -/
def envPlain : TCPEnv :=
  { connect_elapsed := 1, connect_err := none, ssl_outcome := SSLOutcome.handshakeOk,
    send_elapsed := 0, send_err := none, recv_events := [], shutdown_err := none }

/-- An environment whose orderly shutdown raises `OSError`. -/
def envShutdownErr : TCPEnv :=
  { connect_elapsed := 1, connect_err := none, ssl_outcome := SSLOutcome.handshakeOk,
    send_elapsed := 0, send_err := none, recv_events := [],
    shutdown_err := some "OSError [Errno 107] Transport endpoint is not connected" }

/-- A TLS monitor configuration. -/
def tcpTLS : TCP :=
  { port := 443, use_tls := true, verify_tls := true,
    send_string := none, match_re := none, timeout := 5 }

/-- An environment where the TLS handshake raises `socket.timeout`, which
is an `OSError` but not an `ssl.SSLError`. -/
def tlsTimeoutEnv : TCPEnv :=
  { connect_elapsed := 1, connect_err := none,
    ssl_outcome := SSLOutcome.otherError "timed out",
    send_elapsed := 0, send_err := none, recv_events := [], shutdown_err := none }

/-- An `ExternalScript` monitor whose script path does not exist. -/
def extNoScript : ExternalScript :=
  { script_path := "/nonexistent/check.sh", match_re := none, timeout := 5 }

/-- An `ExternalScript` monitor with an anchored output pattern. -/
def extOK : ExternalScript :=
  { script_path := "/opt/check.sh", match_re := some "^OK$", timeout := 5 }

/-- Trace for the budget model that includes a TLS handshake. -/
def wrapTrace : List BlockingOp :=
  [BlockingOp.bConnect 2, BlockingOp.bWrapSSL 3, BlockingOp.bSendall 3]

/-- Claim-side predicate (from the claim text of C5): the port argument is
not an integer in `[1, 65535]`. -/
def c5_portBad (port : PyVal) : Prop :=
  ¬ ∃ n : Int, port = PyVal.pyInt n ∧ 1 ≤ n ∧ n ≤ 65535

/-- Claim-side predicate (C5): the match pattern is present and is
non-textual, or exceeds 128 characters, or fails to compile. -/
def c5_matchBad (m : PyVal) (compiles : String → Bool) : Prop :=
  m ≠ PyVal.pyNone ∧
    ((¬ ∃ s, m = PyVal.pyStr s)
      ∨ ∃ s, m = PyVal.pyStr s ∧ (128 < s.length ∨ compiles s = false))

/-- Claim-side predicate (C5): the send payload is present and is
non-textual or exceeds 256 characters. -/
def c5_sendBad (p : PyVal) : Prop :=
  p ≠ PyVal.pyNone ∧
    ((¬ ∃ s, p = PyVal.pyStr s) ∨ ∃ s, p = PyVal.pyStr s ∧ 256 < s.length)

/-! ## Helper lemmas -/

/-- Clamping as written in the source equals `max x 0`. -/
theorem clamp_eq_max (x : ℚ) : (if x < 0 then 0 else x) = max x 0 := by
  rcases lt_or_le x 0 with h | h
  · simp [if_pos h, max_eq_right h.le]
  · simp [if_neg (not_lt.mpr h), max_eq_left h]

/-- With `auto_timeout` on, `_decrease_timeout` sets both the attribute
and the applied socket timeout to the clamped difference. -/
theorem decrease_timeout_clamp (s : TCPSocket) (t : ℚ)
    (hauto : s.auto_timeout = true) :
    s.decrease_timeout t =
      { timeout := max (s.timeout - t) 0, sock_timeout := max (s.timeout - t) 0,
        auto_timeout := s.auto_timeout, handle_open := s.handle_open } := by
  rw [show s.decrease_timeout t
      = if s.auto_timeout = true
        then TCPSocket.settimeout
          { s with timeout := if s.timeout - t < 0 then 0 else s.timeout - t }
          (if s.timeout - t < 0 then 0 else s.timeout - t)
        else s from rfl]
  rw [if_pos hauto, clamp_eq_max]
  rfl

/-- On a non-wrap operation with elapsed time within the remaining
timeout, `stepOp` yields the exactly-decremented state. -/
theorem stepOp_eq (s : TCPSocket) (op : BlockingOp)
    (hauto : s.auto_timeout = true) (hw : op.isWrap = false)
    (hle : op.elapsed ≤ s.timeout) :
    stepOp s op =
      { timeout := s.timeout - op.elapsed, sock_timeout := s.timeout - op.elapsed,
        auto_timeout := s.auto_timeout, handle_open := s.handle_open } := by
  have hmax : max (s.timeout - op.elapsed) 0 = s.timeout - op.elapsed :=
    max_eq_left (by linarith)
  have hstep : stepOp s op = s.decrease_timeout op.elapsed := by
    cases op with
    | bConnect t => rfl
    | bWrapSSL t => simp [BlockingOp.isWrap] at hw
    | bSendall t => rfl
    | bRecv t => rfl
  rw [hstep, decrease_timeout_clamp s op.elapsed hauto, hmax]

/-! ## Claim C1 -/

/-- Claim C1, counterexample: with `auto_timeout` on and a five-second
budget, a `connect` that fails after two seconds leaves `self.timeout` at
5 — the source only calls `_decrease_timeout` after a successful
operation, so on the raised path the remaining timeout is not `T - t`. -/
theorem c1_counterexample :
    (TCPSocket.connect sock5 2
        (some "ConnectionRefusedError [Errno 111] Connection refused")).1.timeout = 5
    ∧ ¬ ((TCPSocket.connect sock5 2
        (some "ConnectionRefusedError [Errno 111] Connection refused")).1.timeout
          = max (sock5.timeout - 2) 0) := by
  constructor
  · rfl
  · intro h
    rw [show (TCPSocket.connect sock5 2
        (some "ConnectionRefusedError [Errno 111] Connection refused")).1.timeout
          = (5 : ℚ) from rfl] at h
    rw [show sock5.timeout = (5 : ℚ) from rfl] at h
    norm_num at h

/-- Claim C1 (amended): with `auto_timeout` enabled, a successful
`connect`, `sendall` or `recv` taking elapsed time `t` leaves the
remaining timeout at `T - t` clamped at 0, applied via `settimeout` for
the next operation; when the operation raises, the timeout is left
unchanged and the socket handle is closed, so no further operation runs on
it. -/
theorem c1_amended_theorem (s : TCPSocket) (t : ℚ) (e emsg : String) (bs : List Nat)
    (hauto : s.auto_timeout = true) :
    ((TCPSocket.connect s t none).1.timeout = max (s.timeout - t) 0
      ∧ (TCPSocket.connect s t none).1.sock_timeout = max (s.timeout - t) 0)
    ∧ ((TCPSocket.sendall s t none).1.timeout = max (s.timeout - t) 0
      ∧ (TCPSocket.sendall s t none).1.sock_timeout = max (s.timeout - t) 0)
    ∧ ((TCPSocket.recv s (RecvEv.data t bs)).1.timeout = max (s.timeout - t) 0
      ∧ (TCPSocket.recv s (RecvEv.data t bs)).1.sock_timeout = max (s.timeout - t) 0)
    ∧ ((TCPSocket.connect s t (some e)).1.timeout = s.timeout
      ∧ (TCPSocket.connect s t (some e)).1.handle_open = false)
    ∧ ((TCPSocket.sendall s t (some e)).1.timeout = s.timeout
      ∧ (TCPSocket.sendall s t (some e)).1.handle_open = false)
    ∧ ((TCPSocket.recv s (RecvEv.oserr t emsg)).1.timeout = s.timeout
      ∧ (TCPSocket.recv s (RecvEv.oserr t emsg)).1.handle_open = false) := by
  have hd := decrease_timeout_clamp s t hauto
  have hconn : (TCPSocket.connect s t none).1 = s.decrease_timeout t := rfl
  have hsend : (TCPSocket.sendall s t none).1 = s.decrease_timeout t := rfl
  have hrecv : (TCPSocket.recv s (RecvEv.data t bs)).1 = s.decrease_timeout t := rfl
  refine ⟨⟨?_, ?_⟩, ⟨?_, ?_⟩, ⟨?_, ?_⟩, ⟨rfl, rfl⟩, ⟨rfl, rfl⟩, ⟨rfl, rfl⟩⟩
  · rw [hconn, hd]
  · rw [hconn, hd]
  · rw [hsend, hd]
  · rw [hsend, hd]
  · rw [hrecv, hd]
  · rw [hrecv, hd]

/-- Witness for the amended C1 at a concrete socket and elapsed time. -/
theorem c1_amended_witness :
    sock5.auto_timeout = true
    ∧ (TCPSocket.connect sock5 2 none).1.timeout = max (sock5.timeout - 2) 0 := by
  have h := c1_amended_theorem sock5 2 "E" "E" [] rfl
  exact ⟨rfl, h.1.1⟩

/-! ## Claim C2 -/

/-- If the matcher accepts the buffer followed by the concatenation of all
decoded chunks, the receive loop reaches success (possibly earlier, when a
proper prefix of the stream already matches). -/
theorem tcpRunLoop_match_ok (matcher : String → Bool) (sh : Option String) :
    ∀ (chunks : List (ℚ × List Nat)) (s : TCPSocket) (buf : String),
      chunks ≠ [] →
      (∀ c ∈ chunks, c.2 ≠ []) →
      matcher (buf ++ concatDecode chunks) = true →
      ∃ s', tcpRunLoop matcher sh (chunks.map (fun c => RecvEv.data c.1 c.2)) s buf
              = (RunOutcome.ok, s') := by
  intro chunks
  induction chunks with
  | nil =>
    intro s buf h
    exact absurd rfl h
  | cons c rest ih =>
    intro s buf _ hne hm
    have hbs : c.2 ≠ [] := hne c (List.mem_cons_self _ _)
    have hstep : tcpRunLoop matcher sh
        (RecvEv.data c.1 c.2 :: rest.map (fun d => RecvEv.data d.1 d.2))
        s buf
      = (if c.2 = [] then
           (RunOutcome.monitorFailed
             (if buf = "" then remoteClosedNoDataMsg
              else remoteClosedUnmatchedMsg buf), s.decrease_timeout c.1)
         else if matcher (buf ++ decodeUtf8Ignore c.2) then
           (RunOutcome.ok, (TCPSocket.close (s.decrease_timeout c.1) sh).1)
         else
           tcpRunLoop matcher sh (rest.map (fun d => RecvEv.data d.1 d.2))
             (s.decrease_timeout c.1) (buf ++ decodeUtf8Ignore c.2)) := rfl
    rw [List.map_cons, hstep, if_neg hbs]
    by_cases hmt : matcher (buf ++ decodeUtf8Ignore c.2) = true
    · rw [if_pos hmt]
      exact ⟨_, rfl⟩
    · rw [if_neg hmt]
      cases rest with
      | nil =>
        exfalso
        apply hmt
        have hm2 : matcher (buf ++ (decodeUtf8Ignore c.2 ++ "")) = true := hm
        simpa using hm2
      | cons d ds =>
        apply ih
        · exact List.cons_ne_nil d ds
        · exact fun x hx => hne x (List.mem_cons_of_mem _ hx)
        · rw [String.append_assoc]
          exact hm

/-- Claim C2: with a match pattern configured, a response split across any
number of nonempty chunks succeeds whenever the concatenation of the
decoded chunks — the accumulated buffer — is accepted by the pattern
search, even when no individual chunk matches alone: each chunk is
appended to the buffer and the pattern is searched against the whole
accumulated buffer. -/
theorem c2_theorem (m : TCP) (matcher : String → Bool) (env : TCPEnv)
    (chunks : List (ℚ × List Nat)) (r : String)
    (htls : m.use_tls = false) (hsendnone : m.send_string = none)
    (hre : m.match_re = some r)
    (hconn : env.connect_err = none)
    (hevs : env.recv_events = chunks.map (fun c => RecvEv.data c.1 c.2))
    (hnonnil : chunks ≠ [])
    (hchunks : ∀ c ∈ chunks, c.2 ≠ [])
    (hnosingle : ∀ c ∈ chunks, matcher (decodeUtf8Ignore c.2) = false)
    (hconcat : matcher (concatDecode chunks) = true) :
    ∃ s', TCP.run m matcher env = (RunOutcome.ok, s') := by
  have hrun : TCP.run m matcher env
      = tcpRunLoop matcher env.shutdown_err env.recv_events
          (TCPSocket.decrease_timeout
            { timeout := m.timeout, sock_timeout := m.timeout,
              auto_timeout := true, handle_open := true } env.connect_elapsed) "" := by
    rw [TCP.run, hconn, htls, hsendnone, hre]
    rfl
  rw [hrun, hevs]
  apply tcpRunLoop_match_ok matcher env.shutdown_err chunks _ "" hnonnil hchunks
  exact hconcat

/-- Monitor configuration for the C2 witness. -/
def tcpC2 : TCP :=
  { port := 80, use_tls := false, verify_tls := true,
    send_string := none, match_re := some "abcd", timeout := 5 }

/-- Chunks for the C2 witness: the bytes of "ab" then of "cd". -/
def chunksC2 : List (ℚ × List Nat) := [(1, [97, 98]), (1, [99, 100])]

/-- Environment for the C2 witness. -/
def envC2 : TCPEnv :=
  { connect_elapsed := 1, connect_err := none,
    ssl_outcome := SSLOutcome.handshakeOk,
    send_elapsed := 0, send_err := none,
    recv_events := chunksC2.map (fun c => RecvEv.data c.1 c.2),
    shutdown_err := none }

/-- A concrete matcher accepting exactly the strings of length at least 4,
standing for a pattern that needs both chunks. -/
def matcherC2 : String → Bool := fun s => decide (4 ≤ s.length)

/-- Witness for C2: neither two-byte chunk matches alone, the four-byte
concatenation does, and the run succeeds. -/
theorem c2_witness :
    (∀ c ∈ chunksC2, c.2 ≠ [])
    ∧ (∀ c ∈ chunksC2, matcherC2 (decodeUtf8Ignore c.2) = false)
    ∧ matcherC2 (concatDecode chunksC2) = true
    ∧ ∃ s', TCP.run tcpC2 matcherC2 envC2 = (RunOutcome.ok, s') := by
  refine ⟨by decide, by decide, by decide, ?_⟩
  exact c2_theorem tcpC2 matcherC2 envC2 chunksC2 "abcd"
    rfl rfl rfl rfl rfl (by decide) (by decide) (by decide) (by decide)

/-! ## Claim C4 -/

/-- Claim C4 (code bug): not every runtime error inside `run()` surfaces
as `MonitorFailed`.  In the `ExternalScript` monitor, `subprocess.run`
raising `FileNotFoundError` for a nonexistent script path is caught by
neither `except` clause (only `TimeoutExpired` and the never-raised
`CalledProcessError` are), so it escapes `run()`; in the TCP monitor, a
TLS-handshake exception that is not an `ssl.SSLError` — e.g.
`socket.timeout` — escapes `wrap_ssl` and `run()` uncaught. -/
theorem c4_theorem :
    ExternalScript.run extNoScript (fun _ => true)
        (ScriptOutcome.fileNotFound
          "FileNotFoundError: No such file or directory: /nonexistent/check.sh")
      = RunOutcome.uncaught
          "FileNotFoundError: No such file or directory: /nonexistent/check.sh"
    ∧ (∀ msg, ExternalScript.run extNoScript (fun _ => true)
        (ScriptOutcome.fileNotFound
          "FileNotFoundError: No such file or directory: /nonexistent/check.sh")
          ≠ RunOutcome.monitorFailed msg)
    ∧ (TCP.run tcpTLS (fun _ => true) tlsTimeoutEnv).1 = RunOutcome.uncaught "timed out"
    ∧ (∀ msg, (TCP.run tcpTLS (fun _ => true) tlsTimeoutEnv).1
          ≠ RunOutcome.monitorFailed msg) := by
  refine ⟨rfl, ?_, rfl, ?_⟩
  · intro msg h
    rw [show ExternalScript.run extNoScript (fun _ => true)
        (ScriptOutcome.fileNotFound
          "FileNotFoundError: No such file or directory: /nonexistent/check.sh")
      = RunOutcome.uncaught
          "FileNotFoundError: No such file or directory: /nonexistent/check.sh"
      from rfl] at h
    exact RunOutcome.noConfusion h
  · intro msg h
    rw [show (TCP.run tcpTLS (fun _ => true) tlsTimeoutEnv).1
        = RunOutcome.uncaught "timed out" from rfl] at h
    exact RunOutcome.noConfusion h

/-! ## Claim C9 -/

/-- Claim C9: for the `ExternalScript` monitor, timeout expiry signals
`MonitorFailed`; a nonzero exit code signals `MonitorFailed` with the
stripped standard error in the message, independently of standard output;
exit code 0 with a configured pattern missing the captured standard output
signals `MonitorFailed`; and exit code 0 with no pattern, or with the
pattern matching, succeeds. -/
theorem c9_theorem (m : ExternalScript) (matcher : String → Bool)
    (code : Int) (outv errv r : String) :
    (∃ msg, ExternalScript.run m matcher ScriptOutcome.timedOut
        = RunOutcome.monitorFailed msg)
    ∧ (code ≠ 0 →
        ExternalScript.run m matcher (ScriptOutcome.completed code outv errv)
          = RunOutcome.monitorFailed
              ("external script failed with exit code " ++ toString code
                ++ ": stderr=" ++ pyStrip errv))
    ∧ (∀ out2 : String, code ≠ 0 →
        ExternalScript.run m matcher (ScriptOutcome.completed code outv errv)
          = ExternalScript.run m matcher (ScriptOutcome.completed code out2 errv))
    ∧ (m.match_re = some r → matcher (pyStrip outv) = false →
        ExternalScript.run m matcher (ScriptOutcome.completed 0 outv errv)
          = RunOutcome.monitorFailed
              ("failed to match regexp \"" ++ r ++ "\" in script output"))
    ∧ (m.match_re = none →
        ExternalScript.run m matcher (ScriptOutcome.completed 0 outv errv)
          = RunOutcome.ok)
    ∧ (matcher (pyStrip outv) = true →
        ExternalScript.run m matcher (ScriptOutcome.completed 0 outv errv)
          = RunOutcome.ok) := by
  refine ⟨⟨_, rfl⟩, ?_, ?_, ?_, ?_, ?_⟩
  · intro hc
    simp [ExternalScript.run, hc]
  · intro out2 hc
    simp [ExternalScript.run, hc]
  · intro hre hmiss
    simp [ExternalScript.run, hre, hmiss]
  · intro hre
    simp [ExternalScript.run, hre]
  · intro hhit
    cases hmr : m.match_re with
    | none => simp [ExternalScript.run, hmr]
    | some rr => simp [ExternalScript.run, hmr, hhit]

/-- Witness for C9 at concrete inputs: exit code 1 fails with the stripped
stderr in the message. -/
theorem c9_witness :
    ((1 : Int) ≠ 0)
    ∧ ExternalScript.run extOK (fun s => decide (s = "OK"))
        (ScriptOutcome.completed 1 "whatever" " boom \n")
      = RunOutcome.monitorFailed
          ("external script failed with exit code " ++ toString (1 : Int)
            ++ ": stderr=" ++ pyStrip " boom \n") := by
  exact ⟨by decide,
    (c9_theorem extOK (fun s => decide (s = "OK")) 1 "whatever" " boom \n" "^OK$").2.1
      (by decide)⟩

/-! ## Claim C10 -/

/-- Claim C10: `ExternalScript.run` strips leading and trailing whitespace
from the captured standard output and standard error before the pattern
search and before including them in failure messages; in particular the
search input for a raw output of "OK" followed by a newline is exactly
"OK", so an anchored pattern accepting "OK" succeeds. -/
theorem c10_theorem (m : ExternalScript) (matcher : String → Bool)
    (outv errv r : String) :
    (m.match_re = some r → matcher (pyStrip outv) = true →
      ExternalScript.run m matcher (ScriptOutcome.completed 0 outv errv)
        = RunOutcome.ok)
    ∧ (m.match_re = some r → matcher (pyStrip outv) = false →
      ExternalScript.run m matcher (ScriptOutcome.completed 0 outv errv)
        = RunOutcome.monitorFailed
            ("failed to match regexp \"" ++ r ++ "\" in script output"))
    ∧ (∀ code : Int, code ≠ 0 →
      ExternalScript.run m matcher (ScriptOutcome.completed code outv errv)
        = RunOutcome.monitorFailed
            ("external script failed with exit code " ++ toString code
              ++ ": stderr=" ++ pyStrip errv))
    ∧ pyStrip "OK\n" = "OK"
    ∧ (m.match_re = some r → matcher "OK" = true →
      ExternalScript.run m matcher (ScriptOutcome.completed 0 "OK\n" errv)
        = RunOutcome.ok) := by
  refine ⟨?_, ?_, ?_, rfl, ?_⟩
  · intro hre hhit
    simp [ExternalScript.run, hre, hhit]
  · intro hre hmiss
    simp [ExternalScript.run, hre, hmiss]
  · intro code hc
    simp [ExternalScript.run, hc]
  · intro hre hhit
    have hs : pyStrip "OK\n" = "OK" := rfl
    simp [ExternalScript.run, hre, hs, hhit]

/-- Witness for C10: with the pattern configured and a matcher accepting
exactly "OK", a raw stdout of "OK" plus trailing newline succeeds. -/
theorem c10_witness :
    pyStrip "OK\n" = "OK"
    ∧ ExternalScript.run extOK (fun s => decide (s = "OK"))
        (ScriptOutcome.completed 0 "OK\n" "") = RunOutcome.ok := by
  have h := c10_theorem extOK (fun s => decide (s = "OK")) "ignored" "" "^OK$"
  exact ⟨h.2.2.2.1, h.2.2.2.2 rfl (by decide)⟩

/-! ## Claim C5 -/

/-- Characterization of successful `TCP.__init__` validation: construction
succeeds exactly when the port is an integer in range, the pattern is
absent or a compiling string of at most 128 characters, and the payload is
absent or a string of at most 256 characters. -/
theorem tcpInit_ok_iff (port ss mr : PyVal) (u v : Bool) (c : String → Bool) (t : ℚ) :
    exceptIsOk (TCP.init port ss mr u v c t) = true ↔
      ((∃ n : Int, port = PyVal.pyInt n ∧ 1 ≤ n ∧ n ≤ 65535)
        ∧ (mr = PyVal.pyNone ∨ ∃ s, mr = PyVal.pyStr s ∧ s.length ≤ 128 ∧ c s = true)
        ∧ (ss = PyVal.pyNone ∨ ∃ s, ss = PyVal.pyStr s ∧ s.length ≤ 256)) := by
  cases port with
  | pyStr s0 => simp [TCP.init, exceptIsOk]
  | pyNone => simp [TCP.init, exceptIsOk]
  | pyOther => simp [TCP.init, exceptIsOk]
  | pyInt p =>
    by_cases hp : (p < 1 || p > 65535) = true
    · simp only [TCP.init, if_pos hp, exceptIsOk]
      constructor
      · intro h
        exact absurd h (by simp)
      · rintro ⟨⟨n, hn, hn1, hn2⟩, -, -⟩
        injection hn with hn'
        exfalso
        simp only [Bool.or_eq_true, decide_eq_true_eq] at hp
        omega
    · have hpr : ¬ (p < 1 ∨ p > 65535) := by
        intro hcon
        apply hp
        simp only [Bool.or_eq_true, decide_eq_true_eq]
        exact hcon
      have hp1 : 1 ≤ p := by omega
      have hp2 : p ≤ 65535 := by omega
      have hport : ∃ n : Int, PyVal.pyInt p = PyVal.pyInt n ∧ 1 ≤ n ∧ n ≤ 65535 :=
        ⟨p, rfl, hp1, hp2⟩
      simp only [TCP.init, if_neg hp, hport, true_and]
      cases mr with
      | pyInt q => simp [exceptIsOk]
      | pyOther => simp [exceptIsOk]
      | pyNone =>
        simp only [true_or]
        cases ss with
        | pyNone => simp [TCP.initSend, exceptIsOk]
        | pyInt q => simp [TCP.initSend, exceptIsOk]
        | pyOther => simp [TCP.initSend, exceptIsOk]
        | pyStr s1 =>
          by_cases h256 : s1.length > 256
          · simp [TCP.initSend, if_pos h256, exceptIsOk]
            omega
          · simp [TCP.initSend, if_neg h256, exceptIsOk]
            omega
      | pyStr r =>
        by_cases h128 : r.length > 128
        · simp only [if_pos h128, exceptIsOk]
          constructor
          · intro h
            exact absurd h (by simp)
          · rintro ⟨hM, -⟩
            rcases hM with hM | ⟨s2, hs2, hlen, -⟩
            · exact PyVal.noConfusion hM
            · injection hs2 with hs2'
              subst hs2'
              exfalso
              omega
        · by_cases hc : c r = true
          · simp only [if_neg h128, if_pos hc]
            have hM : (PyVal.pyStr r = PyVal.pyNone
                ∨ ∃ s, PyVal.pyStr r = PyVal.pyStr s ∧ s.length ≤ 128 ∧ c s = true) := by
              right
              exact ⟨r, rfl, by omega, hc⟩
            simp only [hM, true_and]
            cases ss with
            | pyNone => simp [TCP.initSend, exceptIsOk]
            | pyInt q => simp [TCP.initSend, exceptIsOk]
            | pyOther => simp [TCP.initSend, exceptIsOk]
            | pyStr s1 =>
              by_cases h256 : s1.length > 256
              · simp [TCP.initSend, if_pos h256, exceptIsOk]
                omega
              · simp [TCP.initSend, if_neg h256, exceptIsOk]
                omega
          · simp only [if_neg h128, if_neg hc, exceptIsOk]
            constructor
            · intro h
              exact absurd h (by simp)
            · rintro ⟨hM, -⟩
              rcases hM with hM | ⟨s2, hs2, -, hcs⟩
              · exact PyVal.noConfusion hM
              · injection hs2 with hs2'
                subst hs2'
                exact absurd hcs hc

set_option maxRecDepth 4096 in
/-- Claim C5: TCP monitor construction fails exactly when the port is not
an integer in `[1, 65535]`, or the match pattern is present and
non-textual or longer than 128 characters or non-compiling, or the send
payload is present and non-textual or longer than 256 characters; and a
pattern of exactly 128 compiling characters is accepted. -/
theorem c5_theorem :
    (∀ (port send_string match_re : PyVal) (u v : Bool)
        (compiles : String → Bool) (t : ℚ),
      exceptIsOk (TCP.init port send_string match_re u v compiles t) = false
        ↔ (c5_portBad port ∨ c5_matchBad match_re compiles
            ∨ c5_sendBad send_string))
    ∧ exceptIsOk (TCP.init (PyVal.pyInt 80) PyVal.pyNone
        (PyVal.pyStr (String.mk (List.replicate 128 'a'))) false true
        (fun _ => true) 5) = true := by
  constructor
  · intro port ss mr u v c t
    have hok := tcpInit_ok_iff port ss mr u v c t
    have hfb : exceptIsOk (TCP.init port ss mr u v c t) = false
        ↔ ¬ (exceptIsOk (TCP.init port ss mr u v c t) = true) := by
      cases exceptIsOk (TCP.init port ss mr u v c t) <;> simp
    rw [hfb, hok]
    have hM : c5_matchBad mr c ↔
        ¬ (mr = PyVal.pyNone
            ∨ ∃ s, mr = PyVal.pyStr s ∧ s.length ≤ 128 ∧ c s = true) := by
      cases mr with
      | pyNone => simp [c5_matchBad]
      | pyInt q => simp [c5_matchBad]
      | pyOther => simp [c5_matchBad]
      | pyStr s1 =>
        simp only [c5_matchBad, not_or]
        constructor
        · rintro ⟨-, h | ⟨s2, hs2, hbad⟩⟩
          · exact absurd ⟨s1, rfl⟩ h
          · injection hs2 with hs2'
            subst hs2'
            refine ⟨fun h => PyVal.noConfusion h, ?_⟩
            rintro ⟨s3, hs3, hlen, hcs⟩
            injection hs3 with hs3'
            subst hs3'
            rcases hbad with hbad | hbad
            · omega
            · rw [hcs] at hbad
              exact Bool.noConfusion hbad
        · rintro ⟨-, hnot⟩
          refine ⟨fun h => PyVal.noConfusion h, Or.inr ⟨s1, rfl, ?_⟩⟩
          by_cases hlen : 128 < s1.length
          · exact Or.inl hlen
          · right
            cases hcs : c s1 with
            | false => rfl
            | true => exact absurd ⟨s1, rfl, by omega, hcs⟩ hnot
    have hS : c5_sendBad ss ↔
        ¬ (ss = PyVal.pyNone ∨ ∃ s, ss = PyVal.pyStr s ∧ s.length ≤ 256) := by
      cases ss with
      | pyNone => simp [c5_sendBad]
      | pyInt q => simp [c5_sendBad]
      | pyOther => simp [c5_sendBad]
      | pyStr s1 =>
        simp only [c5_sendBad, not_or]
        constructor
        · rintro ⟨-, h | ⟨s2, hs2, hbad⟩⟩
          · exact absurd ⟨s1, rfl⟩ h
          · injection hs2 with hs2'
            subst hs2'
            refine ⟨fun h => PyVal.noConfusion h, ?_⟩
            rintro ⟨s3, hs3, hlen⟩
            injection hs3 with hs3'
            subst hs3'
            omega
        · rintro ⟨-, hnot⟩
          refine ⟨fun h => PyVal.noConfusion h, Or.inr ⟨s1, rfl, ?_⟩⟩
          by_cases hlen : 256 < s1.length
          · exact hlen
          · exact absurd ⟨s1, rfl, by omega⟩ hnot
    rw [hM, hS]
    simp only [c5_portBad]
    rw [not_and_or, not_and_or]
  · rfl

/-- On every exit of the receive loop under an error-free shutdown, the
handle was closed, unless the exit is the deliberate remote-closed failure
or the model ran out of receive events. -/
theorem tcpRunLoop_release (matcher : String → Bool) :
    ∀ (evs : List RecvEv) (s : TCPSocket) (buf : String),
      (tcpRunLoop matcher none evs s buf).2.handle_open = false
      ∨ (tcpRunLoop matcher none evs s buf).1
          = RunOutcome.monitorFailed remoteClosedNoDataMsg
      ∨ (∃ b, (tcpRunLoop matcher none evs s buf).1
          = RunOutcome.monitorFailed (remoteClosedUnmatchedMsg b))
      ∨ (∃ b, (tcpRunLoop matcher none evs s buf).1 = RunOutcome.noMoreEvents b) := by
  intro evs
  induction evs with
  | nil =>
    intro s buf
    exact Or.inr (Or.inr (Or.inr ⟨buf, rfl⟩))
  | cons ev rest ih =>
    intro s buf
    cases ev with
    | oserr t msg => exact Or.inl rfl
    | data t bs =>
      have hstep : tcpRunLoop matcher none (RecvEv.data t bs :: rest) s buf
        = (if bs = [] then
             (RunOutcome.monitorFailed
               (if buf = "" then remoteClosedNoDataMsg
                else remoteClosedUnmatchedMsg buf), s.decrease_timeout t)
           else if matcher (buf ++ decodeUtf8Ignore bs) then
             (RunOutcome.ok, (TCPSocket.close (s.decrease_timeout t) none).1)
           else
             tcpRunLoop matcher none rest (s.decrease_timeout t)
               (buf ++ decodeUtf8Ignore bs)) := rfl
      by_cases hbs : bs = []
      · by_cases hbuf : buf = ""
        · rw [hstep, if_pos hbs, if_pos hbuf]
          exact Or.inr (Or.inl rfl)
        · rw [hstep, if_pos hbs, if_neg hbuf]
          exact Or.inr (Or.inr (Or.inl ⟨buf, rfl⟩))
      · rw [hstep, if_neg hbs]
        by_cases hmt : matcher (buf ++ decodeUtf8Ignore bs) = true
        · rw [if_pos hmt]
          exact Or.inl rfl
        · rw [if_neg hmt]
          exact ih _ _

/-- Claim C6, counterexample: when the orderly shutdown inside `close()`
raises `OSError`, the error is logged and not raised — but the subsequent
`self._sock.close()` is skipped, so the handle is NOT closed; here a
successful run signals success while the handle is still open. -/
theorem c6_counterexample :
    (TCP.run tcpPlain (fun _ => true) envShutdownErr).1 = RunOutcome.ok
    ∧ (TCP.run tcpPlain (fun _ => true) envShutdownErr).2.handle_open = true
    ∧ (TCPSocket.close sock5
        (some "OSError [Errno 107] Transport endpoint is not connected")).2
      = some ("Got OSError [Errno 107] Transport endpoint is not connected"
          ++ " when shutting down and closing the socket")
    ∧ (TCPSocket.close sock5
        (some "OSError [Errno 107] Transport endpoint is not connected")).1.handle_open
      = true := by
  exact ⟨rfl, rfl, rfl, rfl⟩

/-- Claim C6 (amended): `close()` never raises — an `OSError` during the
shutdown is logged and the state is returned unchanged, skipping the
handle close; when the shutdown does not fail, every exit path of `run()`
releases the handle before signaling, except the deliberate remote-closed
failure, the uncaught non-`SSLError` handshake exception, and the model
artefact of running out of receive events. -/
theorem c6_amended_theorem :
    (∀ (s : TCPSocket) (e : String),
        TCPSocket.close s (some e)
          = (s, some ("Got " ++ e ++ " when shutting down and closing the socket")))
    ∧ (∀ s : TCPSocket,
        TCPSocket.close s none = ({ s with handle_open := false }, none))
    ∧ (∀ (m : TCP) (matcher : String → Bool) (env : TCPEnv),
        env.shutdown_err = none →
        (TCP.run m matcher env).2.handle_open = false
        ∨ (TCP.run m matcher env).1 = RunOutcome.monitorFailed remoteClosedNoDataMsg
        ∨ (∃ b, (TCP.run m matcher env).1
            = RunOutcome.monitorFailed (remoteClosedUnmatchedMsg b))
        ∨ (∃ e, (TCP.run m matcher env).1 = RunOutcome.uncaught e)
        ∨ (∃ b, (TCP.run m matcher env).1 = RunOutcome.noMoreEvents b)) := by
  refine ⟨fun s e => rfl, fun s => rfl, ?_⟩
  intro m matcher env hsh
  cases hc : env.connect_err with
  | some e =>
    left
    simp [TCP.run, hc, TCPSocket.connect, TCPSocket.rawClose]
  | none =>
    cases htls : m.use_tls with
    | true =>
      cases ho : env.ssl_outcome with
      | sslError e =>
        left
        simp [TCP.run, hc, htls, ho, TCPSocket.connect, TCPSocket.wrap_ssl,
          TCPSocket.rawClose]
      | otherError e =>
        refine Or.inr (Or.inr (Or.inr (Or.inl ⟨e, ?_⟩)))
        simp [TCP.run, hc, htls, ho, TCPSocket.connect, TCPSocket.wrap_ssl]
      | handshakeOk =>
        cases hss : m.send_string with
        | some payload =>
          cases hse : env.send_err with
          | some e =>
            left
            simp [TCP.run, hc, htls, ho, hss, hse, TCPSocket.connect,
              TCPSocket.wrap_ssl, TCPSocket.sendall, TCPSocket.rawClose]
          | none =>
            cases hmr : m.match_re with
            | none =>
              left
              simp [TCP.run, hc, htls, ho, hss, hse, hmr, hsh, TCPSocket.connect,
                TCPSocket.wrap_ssl, TCPSocket.sendall, TCPSocket.close]
            | some r =>
              have hrun : TCP.run m matcher env
                  = tcpRunLoop matcher none env.recv_events
                      (TCPSocket.sendall
                        (TCPSocket.decrease_timeout
                          { timeout := m.timeout, sock_timeout := m.timeout,
                            auto_timeout := true, handle_open := true }
                          env.connect_elapsed)
                        env.send_elapsed none).1 "" := by
                rw [TCP.run, hc, htls, ho, hss, hse, hmr, hsh]
                rfl
              rw [hrun]
              rcases tcpRunLoop_release matcher env.recv_events _ "" with h | h | h | h
              · exact Or.inl h
              · exact Or.inr (Or.inl h)
              · exact Or.inr (Or.inr (Or.inl h))
              · exact Or.inr (Or.inr (Or.inr (Or.inr h)))
        | none =>
          cases hmr : m.match_re with
          | none =>
            left
            simp [TCP.run, hc, htls, ho, hss, hmr, hsh, TCPSocket.connect,
              TCPSocket.wrap_ssl, TCPSocket.close]
          | some r =>
            have hrun : TCP.run m matcher env
                = tcpRunLoop matcher none env.recv_events
                    (TCPSocket.decrease_timeout
                      { timeout := m.timeout, sock_timeout := m.timeout,
                        auto_timeout := true, handle_open := true }
                      env.connect_elapsed) "" := by
              rw [TCP.run, hc, htls, ho, hss, hmr, hsh]
              rfl
            rw [hrun]
            rcases tcpRunLoop_release matcher env.recv_events _ "" with h | h | h | h
            · exact Or.inl h
            · exact Or.inr (Or.inl h)
            · exact Or.inr (Or.inr (Or.inl h))
            · exact Or.inr (Or.inr (Or.inr (Or.inr h)))
    | false =>
      cases hss : m.send_string with
      | some payload =>
        cases hse : env.send_err with
        | some e =>
          left
          simp [TCP.run, hc, htls, hss, hse, TCPSocket.connect,
            TCPSocket.sendall, TCPSocket.rawClose]
        | none =>
          cases hmr : m.match_re with
          | none =>
            left
            simp [TCP.run, hc, htls, hss, hse, hmr, hsh, TCPSocket.connect,
              TCPSocket.sendall, TCPSocket.close]
          | some r =>
            have hrun : TCP.run m matcher env
                = tcpRunLoop matcher none env.recv_events
                    (TCPSocket.sendall
                      (TCPSocket.decrease_timeout
                        { timeout := m.timeout, sock_timeout := m.timeout,
                          auto_timeout := true, handle_open := true }
                        env.connect_elapsed)
                      env.send_elapsed none).1 "" := by
              rw [TCP.run, hc, htls, hss, hse, hmr, hsh]
              rfl
            rw [hrun]
            rcases tcpRunLoop_release matcher env.recv_events _ "" with h | h | h | h
            · exact Or.inl h
            · exact Or.inr (Or.inl h)
            · exact Or.inr (Or.inr (Or.inl h))
            · exact Or.inr (Or.inr (Or.inr (Or.inr h)))
      | none =>
        cases hmr : m.match_re with
        | none =>
          left
          simp [TCP.run, hc, htls, hss, hmr, hsh, TCPSocket.connect,
            TCPSocket.close]
        | some r =>
          have hrun : TCP.run m matcher env
              = tcpRunLoop matcher none env.recv_events
                  (TCPSocket.decrease_timeout
                    { timeout := m.timeout, sock_timeout := m.timeout,
                      auto_timeout := true, handle_open := true }
                    env.connect_elapsed) "" := by
            rw [TCP.run, hc, htls, hss, hmr, hsh]
            rfl
          rw [hrun]
          rcases tcpRunLoop_release matcher env.recv_events _ "" with h | h | h | h
          · exact Or.inl h
          · exact Or.inr (Or.inl h)
          · exact Or.inr (Or.inr (Or.inl h))
          · exact Or.inr (Or.inr (Or.inr (Or.inr h)))

/-- Witness for the amended C6 at a concrete socket and environment. -/
theorem c6_amended_witness :
    TCPSocket.close sock5 (some "OSError boom")
      = (sock5, some ("Got " ++ "OSError boom"
          ++ " when shutting down and closing the socket"))
    ∧ (envPlain.shutdown_err = none)
    ∧ ((TCP.run tcpPlain (fun _ => true) envPlain).2.handle_open = false
      ∨ (TCP.run tcpPlain (fun _ => true) envPlain).1
          = RunOutcome.monitorFailed remoteClosedNoDataMsg
      ∨ (∃ b, (TCP.run tcpPlain (fun _ => true) envPlain).1
          = RunOutcome.monitorFailed (remoteClosedUnmatchedMsg b))
      ∨ (∃ e, (TCP.run tcpPlain (fun _ => true) envPlain).1 = RunOutcome.uncaught e)
      ∨ (∃ b, (TCP.run tcpPlain (fun _ => true) envPlain).1
          = RunOutcome.noMoreEvents b)) := by
  exact ⟨c6_amended_theorem.1 sock5 "OSError boom", rfl,
    c6_amended_theorem.2.2 tcpPlain (fun _ => true) envPlain rfl⟩

/-! ## Claim C7 -/

/-- Claim C7, counterexample: the source decodes received chunks with
the ignore error mode, which DROPS undecodable bytes instead of replacing each
with a replacement character: the chunk consisting of the single byte 0xFF
contributes nothing to the accumulated buffer, so a following clean peer
close yields the no-data message rather than a partial-response message
containing U+FFFD. -/
theorem c7_counterexample :
    decodeUtf8Ignore [255] = ""
    ∧ decodeUtf8Ignore [255] ≠ "�"
    ∧ (tcpRunLoop (fun _ => false) none
        [RecvEv.data 1 [255], RecvEv.data 1 []] sock5 "").1
      = RunOutcome.monitorFailed remoteClosedNoDataMsg := by
  refine ⟨rfl, ?_, rfl⟩
  intro h
  exact absurd h (by decide)

/-- Claim C7 (amended): each received chunk is decoded with undecodable
bytes silently dropped (ignored) rather than aborting the run: a byte that
can never occur in UTF-8, such as 0xFF, is removed without a trace, and
the valid bytes around it still decode, so here the bytes of "hi" plus an
interleaved 0xFF byte plus "!" decode to "hi!" and the match succeeds. -/
theorem c7_amended_theorem :
    (∀ bs : List Nat, decodeUtf8Ignore (255 :: bs) = decodeUtf8Ignore bs)
    ∧ decodeUtf8Ignore [104, 105, 255, 33] = "hi!"
    ∧ (tcpRunLoop (fun st => decide (st = "hi!")) none
        [RecvEv.data 1 [104, 105, 255, 33], RecvEv.data 1 []] sock5 "").1
      = RunOutcome.ok := by
  exact ⟨fun bs => rfl, rfl, rfl⟩

/-! ## Claim C8 -/

/-- Claim C8: the failure messages of the receive loop distinguish the
no-data case from the partial-unmatched-response case on both the
receive-error path and the peer-close path; the partial case shows at most
512 characters of the accumulated response (all of it when it is short);
and on a clean peer close the message contains "remote closed" and the
(truncated) partial response text. -/
theorem c8_theorem (b e : String) (hb : b ≠ "") :
    recvErrUnmatchedMsg e b ≠ recvErrNoDataMsg e
    ∧ remoteClosedUnmatchedMsg b ≠ remoteClosedNoDataMsg
    ∧ strContains (remoteClosedUnmatchedMsg b) "remote closed"
    ∧ strContains (remoteClosedUnmatchedMsg b) (pySlice b 512)
    ∧ (pySlice b 512).length ≤ 512
    ∧ (b.length ≤ 512 → pySlice b 512 = b)
    ∧ (∀ (matcher : String → Bool) (s : TCPSocket) (t : ℚ)
        (rest : List RecvEv) (sh : Option String),
        (tcpRunLoop matcher sh (RecvEv.data t [] :: rest) s b).1
          = RunOutcome.monitorFailed (remoteClosedUnmatchedMsg b))
    ∧ (∀ (matcher : String → Bool) (s : TCPSocket) (t : ℚ)
        (rest : List RecvEv) (sh : Option String),
        (tcpRunLoop matcher sh (RecvEv.data t [] :: rest) s "").1
          = RunOutcome.monitorFailed remoteClosedNoDataMsg)
    ∧ (∀ (matcher : String → Bool) (s : TCPSocket) (t : ℚ) (emsg : String)
        (rest : List RecvEv) (sh : Option String),
        (tcpRunLoop matcher sh (RecvEv.oserr t emsg :: rest) s b).1
          = RunOutcome.monitorFailed
              (recvErrUnmatchedMsg (emsg ++ " during socket.recv()") b)) := by
  refine ⟨?_, ?_, ?_, ?_, ?_, ?_, ?_, ?_, ?_⟩
  · intro h
    have h2 := congrArg String.length h
    simp only [recvErrUnmatchedMsg, recvErrNoDataMsg, String.length_append] at h2
    have hlt : "got ".length + ", no data received from the peer".length
        < "failed to match the regexp within the timeout, got ".length
          + ", response(up to 512 chars): ".length := by decide
    omega
  · intro h
    have h2 := congrArg String.length h
    simp only [remoteClosedUnmatchedMsg, remoteClosedNoDataMsg,
      String.length_append] at h2
    have hlt : "remote closed the connection, no data received from the peer".length
        < "remote closed the connection, failed to match the regexp in the response(up to 512 chars): ".length := by
      decide
    omega
  · exact ⟨"", " the connection, failed to match the regexp in the response(up to 512 chars): "
        ++ pySlice b 512, rfl⟩
  · refine ⟨"remote closed the connection, failed to match the regexp in the response(up to 512 chars): ",
        "", ?_⟩
    rw [remoteClosedUnmatchedMsg, String.append_empty]
  · show (String.mk (b.data.take 512)).length ≤ 512
    exact List.length_take_le 512 b.data
  · intro hlen
    have : b.data.take 512 = b.data := List.take_of_length_le hlen
    rw [pySlice, this]
  · intro matcher s t rest sh
    have hstep : (tcpRunLoop matcher sh (RecvEv.data t [] :: rest) s b).1
      = RunOutcome.monitorFailed
          (if b = "" then remoteClosedNoDataMsg else remoteClosedUnmatchedMsg b) := rfl
    rw [hstep, if_neg hb]
  · intro matcher s t rest sh
    rfl
  · intro matcher s t emsg rest sh
    have hstep : (tcpRunLoop matcher sh (RecvEv.oserr t emsg :: rest) s b).1
      = RunOutcome.monitorFailed
          (if b = "" then recvErrNoDataMsg (emsg ++ " during socket.recv()")
           else recvErrUnmatchedMsg (emsg ++ " during socket.recv()") b) := rfl
    rw [hstep, if_neg hb]

/-- Witness for C8 at a concrete partial response. -/
theorem c8_witness :
    ("hello" : String) ≠ ""
    ∧ strContains (remoteClosedUnmatchedMsg "hello") "remote closed"
    ∧ remoteClosedUnmatchedMsg "hello" ≠ remoteClosedNoDataMsg := by
  have h := c8_theorem "hello" "E" (by decide)
  exact ⟨by decide, h.2.2.1, h.2.1⟩

/-! ## Claim C3 -/

/-- Claim C3, counterexample: a well-timed trace — every operation takes a
time within the socket timeout in force when it starts — that includes a
TLS handshake can consume 8 seconds of wall clock against a configured
budget of 5, because `wrap_ssl` never calls `_decrease_timeout`. -/
theorem c3_counterexample :
    wellTimed wrapTrace sock5 = true ∧ totalElapsed wrapTrace > sock5.timeout := by
  constructor
  · norm_num [wrapTrace, wellTimed, stepOp, BlockingOp.elapsed, sock5,
      TCPSocket.decrease_timeout, TCPSocket.settimeout]
  · norm_num [wrapTrace, totalElapsed, BlockingOp.elapsed, sock5]

/-- Claim C3 (amended): for a well-timed trace of successful blocking
operations containing no TLS handshake, the total wall-clock time is
bounded by the initially configured timeout; `wrap_ssl` does not decrease
the shared timeout, so traces containing the handshake escape this
bound. -/
theorem c3_amended_theorem (s : TCPSocket) (tr : List BlockingOp)
    (hauto : s.auto_timeout = true) (hsync : s.sock_timeout = s.timeout)
    (hpos : 0 ≤ s.timeout)
    (hnowrap : ∀ op ∈ tr, op.isWrap = false)
    (hwt : wellTimed tr s = true) :
    totalElapsed tr ≤ s.timeout := by
  induction tr generalizing s with
  | nil => simpa [totalElapsed] using hpos
  | cons op rest ih =>
    rw [wellTimed] at hwt
    simp only [Bool.and_eq_true, decide_eq_true_eq] at hwt
    obtain ⟨⟨h0, hle⟩, hrest⟩ := hwt
    rw [hsync] at hle
    have hw : op.isWrap = false := hnowrap op (List.mem_cons_self op rest)
    have hnw : ∀ o ∈ rest, o.isWrap = false :=
      fun o ho => hnowrap o (List.mem_cons_of_mem _ ho)
    have hs' := stepOp_eq s op hauto hw hle
    have ihr := ih (stepOp s op)
      (by rw [hs']; exact hauto)
      (by rw [hs'])
      (by rw [hs']; show (0 : ℚ) ≤ s.timeout - op.elapsed; linarith)
      hnw hrest
    rw [hs'] at ihr
    have htot : totalElapsed (op :: rest) = op.elapsed + totalElapsed rest := by
      simp [totalElapsed]
    rw [htot]
    have : totalElapsed rest ≤ s.timeout - op.elapsed := ihr
    linarith

/-- Witness for the amended C3 at a concrete trace without a handshake. -/
theorem c3_amended_witness :
    sock5.auto_timeout = true ∧ sock5.sock_timeout = sock5.timeout
    ∧ (0 : ℚ) ≤ sock5.timeout
    ∧ (∀ op ∈ [BlockingOp.bConnect 2, BlockingOp.bRecv 1], op.isWrap = false)
    ∧ wellTimed [BlockingOp.bConnect 2, BlockingOp.bRecv 1] sock5 = true
    ∧ totalElapsed [BlockingOp.bConnect 2, BlockingOp.bRecv 1] ≤ sock5.timeout := by
  have hwt : wellTimed [BlockingOp.bConnect 2, BlockingOp.bRecv 1] sock5 = true := by
    norm_num [wellTimed, stepOp, BlockingOp.elapsed, sock5,
      TCPSocket.decrease_timeout, TCPSocket.settimeout]
  refine ⟨rfl, rfl, by norm_num [sock5], ?_, hwt, ?_⟩
  · intro op hop
    rcases List.mem_cons.mp hop with h | h
    · rw [h]; rfl
    · rcases List.mem_cons.mp h with h2 | h2
      · rw [h2]; rfl
      · exact absurd h2 (List.not_mem_nil op)
  · refine c3_amended_theorem sock5 [BlockingOp.bConnect 2, BlockingOp.bRecv 1]
      rfl rfl (by norm_num [sock5]) ?_ hwt
    intro op hop
    rcases List.mem_cons.mp hop with h | h
    · rw [h]; rfl
    · rcases List.mem_cons.mp h with h2 | h2
      · rw [h2]; rfl
      · exact absurd h2 (List.not_mem_nil op)
